import Mathlib

/-!
Shallow embedding of the two variants of the controller-to-keyboard mapper
found in `main.go`.  Variant A is the repeat-timing design (per-direction
analog state machine with a 500 ms initial delay and 50 ms repeat cadence,
plus a button map that also covers the D-pad); variant B is the pure
level-triggered bitmask design.

The external collaborators are modelled as data:
  * the Raw Input Sampler becomes a `Snapshot` (button index to pressed
    state, axis index to signed value);
  * the Key Emitter becomes a trace of `Event`s returned by every
    operation (`robotgo.KeyDown`/`robotgo.KeyUp` calls, plus markers for
    `controller.Close()` and `sdl.Quit()` during cleanup);
  * Go's `map[string]bool` sets become duplicate-free `List String`
    values, and `map[string]time.Time` becomes an association list with
    time measured in integer milliseconds.

Go iterates maps in an unspecified order; here the static tables are kept
as lists in declaration order.  Every key handled inside one tick is
distinct, so the resulting key state does not depend on that order.
-/

/-- One call made to an external collaborator: a key emitter call, or a
cleanup action on the controller handle / SDL subsystem. -/
inductive Event where
  | keyDown (key : String)
  | keyUp (key : String)
  | closeController
  | quitSdl
deriving DecidableEq, Repr

/-- One tick's raw controller input: pressed state per button index and a
signed axis value per axis index (conceptually in [-32768, 32767]). -/
structure Snapshot where
  button : Nat → Bool
  axis : Nat → Int

/-- Body of `pressKey` from the source (identical in both variants),
acting on the `pressedKeys` set: emit `KeyDown` and insert only when the
key is not already held. -/
def pressKeyL (p : List String) (k : String) : List String × List Event :=
  if k ∈ p then (p, []) else (k :: p, [Event.keyDown k])

/-- Body of `releaseKey` from the source (identical in both variants):
emit `KeyUp` and delete only when the key is currently held. -/
def releaseKeyL (p : List String) (k : String) : List String × List Event :=
  if k ∈ p then (p.erase k, [Event.keyUp k]) else (p, [])

/-- The `if pressed then pressKey else releaseKey` pattern that both
variants apply to every button, trigger and direction bit. -/
def setKeyL (p : List String) (k : String) (active : Bool) : List String × List Event :=
  if active then pressKeyL p k else releaseKeyL p k

/-- A loop of `setKeyL` steps over a (key, desired-state) list, collecting
the emitted events in order. -/
def applyPlan (p : List String) : List (String × Bool) → List String × List Event
  | [] => (p, [])
  | kb :: rest =>
    let r1 := setKeyL p kb.1 kb.2
    let r2 := applyPlan r1.1 rest
    (r2.1, r1.2 ++ r2.2)

/-- The deferred-cleanup loop `for key := range cm.pressedKeys
{ cm.releaseKey(key) }` from both variants: release each key of the first
list against the running set `p`. -/
def releaseAllL : List String → List String → List String × List Event
  | [], p => (p, [])
  | k :: rest, p =>
    let r := releaseKeyL p k
    let r2 := releaseAllL rest r.1
    (r2.1, r.2 ++ r2.2)

/-- Number of occurrences of an event in a trace. -/
def countEvent (l : List Event) (e : Event) : Nat :=
  match l with
  | [] => 0
  | x :: rest => (if x = e then 1 else 0) + countEvent rest e

/-- One step of replaying an emitter trace: update the held flag of key
`k` with one event. -/
def heldStep (k : String) (held : Bool) (e : Event) : Bool :=
  match e with
  | Event.keyDown k2 => if k2 = k then true else held
  | Event.keyUp k2 => if k2 = k then false else held
  | _ => held

/-- Replay of an emitter trace: `true` exactly when key `k` has received a
`keyDown` and no `keyUp` since. -/
def lastIsDown (l : List Event) (k : String) : Bool :=
  l.foldl (heldStep k) false

namespace VariantA

/-- Engine state of variant A: the pressed-key set, the per-direction
`analogState` activity flags (stored as the set of directions whose flag
is `true`) and the `lastAnalogPress` timestamps in milliseconds. -/
structure State where
  pressedKeys : List String
  analogState : List String
  lastAnalogPress : List (String × Int)
deriving DecidableEq, Repr

/-- The fresh mapper state built by `NewControllerMapper`. -/
def initState : State := { pressedKeys := [], analogState := [], lastAnalogPress := [] }

/-- `initialDelay` (500 ms) from `NewControllerMapper`. -/
def initialDelay : Int := 500

/-- `repeatDelay` (50 ms) from `NewControllerMapper`. -/
def repeatDelay : Int := 50

/-- The `keyMap` literal inside `handleAnalogDirection` (identity on the
four direction names, Go's zero value `""` otherwise). -/
def keyMap (direction : String) : String :=
  if direction = "up" then "up"
  else if direction = "down" then "down"
  else if direction = "left" then "left"
  else if direction = "right" then "right"
  else ""

/-- Store `analogState[direction] = true`. -/
def analogSet (l : List String) (d : String) : List String :=
  if d ∈ l then l else d :: l

/-- Store `analogState[direction] = false` (indistinguishable from
deletion for every lookup the program performs). -/
def analogClear (l : List String) (d : String) : List String :=
  l.erase d

/-- Lookup in `lastAnalogPress`; Go's zero `time.Time` becomes 0. -/
def lookupTime (m : List (String × Int)) (k : String) : Int :=
  match m.find? (fun kv => kv.1 == k) with
  | some kv => kv.2
  | none => 0

/-- Store a timestamp in `lastAnalogPress`. -/
def storeTime (m : List (String × Int)) (k : String) (v : Int) : List (String × Int) :=
  (k, v) :: m.filter (fun kv => kv.1 != k)

/-- `delete(cm.lastAnalogPress, direction)`. -/
def eraseTime (m : List (String × Int)) (k : String) : List (String × Int) :=
  m.filter (fun kv => kv.1 != k)

/-- `handleAnalogDirection` from variant A, with `now` passed explicitly
(the source reads `time.Now()`): on a rising edge press the key and
record the timestamp; while active, once 500 ms have elapsed since the
recorded timestamp, release-then-press and set the timestamp to
`now - initialDelay + repeatDelay`; on a falling edge release and clear. -/
def handleAnalogDirection (s : State) (direction : String) (isActive : Bool) (now : Int) :
    State × List Event :=
  let key := keyMap direction
  if isActive then
    if direction ∉ s.analogState then
      let r := pressKeyL s.pressedKeys key
      ({ pressedKeys := r.1, analogState := analogSet s.analogState direction,
         lastAnalogPress := storeTime s.lastAnalogPress direction now }, r.2)
    else
      let timeSinceLast := now - lookupTime s.lastAnalogPress direction
      if timeSinceLast ≥ initialDelay then
        let r1 := releaseKeyL s.pressedKeys key
        let r2 := pressKeyL r1.1 key
        ({ pressedKeys := r2.1, analogState := s.analogState,
           lastAnalogPress := storeTime s.lastAnalogPress direction (now - initialDelay + repeatDelay) },
         r1.2 ++ r2.2)
      else (s, [])
  else
    if direction ∈ s.analogState then
      let r := releaseKeyL s.pressedKeys key
      ({ pressedKeys := r.1, analogState := analogClear s.analogState direction,
         lastAnalogPress := eraseTime s.lastAnalogPress direction }, r.2)
    else (s, [])

/-- The `deadzone` constant (8000) of `handleAnalogStick`. -/
def deadzone : Int := 8000

/-- `handleAnalogStick` from variant A: feed the four deadzone-filtered
axis comparisons to `handleAnalogDirection`, in source order
(right, left, down, up). -/
def handleAnalogStick (s : State) (x y : Int) (now : Int) : State × List Event :=
  let r1 := handleAnalogDirection s "right" (decide (x > deadzone)) now
  let r2 := handleAnalogDirection r1.1 "left" (decide (x < -deadzone)) now
  let r3 := handleAnalogDirection r2.1 "down" (decide (y > deadzone)) now
  let r4 := handleAnalogDirection r3.1 "up" (decide (y < -deadzone)) now
  (r4.1, r1.2 ++ r2.2 ++ r3.2 ++ r4.2)

/-- `L2_AXIS` (left trigger axis index). -/
def L2_AXIS : Nat := 4

/-- `R2_AXIS` (right trigger axis index). -/
def R2_AXIS : Nat := 5

/-- `TRIGGER_THRESHOLD = 32767 / 2` (Go integer division, hence 16383). -/
def TRIGGER_THRESHOLD : Int := 32767 / 2

/-- `areTriggersPressed`: strict comparison of both trigger axes against
the threshold. -/
def areTriggersPressed (snap : Snapshot) : Bool × Bool :=
  (decide (snap.axis L2_AXIS > TRIGGER_THRESHOLD), decide (snap.axis R2_AXIS > TRIGGER_THRESHOLD))

/-- The `buttonMap` literal of variant A's `Run` (the D-pad buttons 11-14
are mapped onto the same four direction keys the analog handler uses). -/
def buttonMap : List (Nat × String) :=
  [(0, "shift"), (1, "space"), (2, "LCTRL"), (3, "x"), (4, "tab"), (5, "k"),
   (6, "esc"), (7, "3"), (8, "2"), (9, "q"), (10, "w"),
   (11, "up"), (12, "down"), (13, "left"), (14, "right")]

/-- One iteration of variant A's `Run` loop body (after the quit-event
poll): the button loop, the two trigger branches, then
`handleAnalogStick` on axes 0 and 1 (`CONTROLLER_AXIS_LEFTX/LEFTY`). -/
def tick (s : State) (snap : Snapshot) (now : Int) : State × List Event :=
  let rb := applyPlan s.pressedKeys (buttonMap.map (fun bk => (bk.2, snap.button bk.1)))
  let tr := areTriggersPressed snap
  let ra := setKeyL rb.1 "a" tr.1
  let rs := setKeyL ra.1 "s" tr.2
  let s1 : State := { s with pressedKeys := rs.1 }
  let r4 := handleAnalogStick s1 (snap.axis 0) (snap.axis 1) now
  (r4.1, rb.2 ++ ra.2 ++ rs.2 ++ r4.2)

/-- The deferred cleanup of variant A's `Run`: release every currently
pressed key, then close the controller, then quit SDL. -/
def cleanup (s : State) : List Event :=
  (releaseAllL s.pressedKeys s.pressedKeys).2 ++ [Event.closeController, Event.quitSdl]

end VariantA

namespace VariantB

/-- Direction bit constants of variant B. -/
def DIR_NONE : Nat := 0

/-- `DIR_UP = 1 <<< 0`. -/
def DIR_UP : Nat := 1

/-- `DIR_RIGHT = 1 <<< 1`. -/
def DIR_RIGHT : Nat := 2

/-- `DIR_DOWN = 1 <<< 2`. -/
def DIR_DOWN : Nat := 4

/-- `DIR_LEFT = 1 <<< 3`. -/
def DIR_LEFT : Nat := 8

/-- `analogDeadzone` (8000). -/
def analogDeadzone : Int := 8000

/-- `triggerThreshold` (16383). -/
def triggerThreshold : Int := 16383

/-- `buttonKeyMap` of variant B (no D-pad entries). -/
def buttonKeyMap : List (Nat × String) :=
  [(0, "shift"), (1, "space"), (2, "lctrl"), (3, "x"), (4, "tab"), (5, "k"),
   (6, "esc"), (7, "3"), (8, "2"), (9, "q"), (10, "w")]

/-- `triggerKeyMap` of variant B. -/
def triggerKeyMap : List (Nat × String) :=
  [(4, "a"), (5, "s")]

/-- Engine state of variant B. -/
structure State where
  pressedKeys : List String
  currentDirection : Nat
deriving DecidableEq, Repr

/-- The fresh mapper state built by variant B's `NewControllerMapper`. -/
def initState : State := { pressedKeys := [], currentDirection := DIR_NONE }

/-- The `direction` value computed at the top of `handleDirectionalInputs`:
OR the four D-pad buttons (SDL indices 11-14 for up/down/left/right), then,
when either stick axis magnitude exceeds the deadzone, OR in at most one
horizontal bit (`x > 8000` else-if `x < -8000`) and at most one vertical
bit (`y > 8000` else-if `y < -8000`). -/
def directionOf (snap : Snapshot) : Nat :=
  let d0 := DIR_NONE
  let d1 := if snap.button 11 then d0 ||| DIR_UP else d0
  let d2 := if snap.button 12 then d1 ||| DIR_DOWN else d1
  let d3 := if snap.button 13 then d2 ||| DIR_LEFT else d2
  let d4 := if snap.button 14 then d3 ||| DIR_RIGHT else d3
  let x := snap.axis 0
  let y := snap.axis 1
  if x.natAbs > 8000 ∨ y.natAbs > 8000 then
    let d5 := if x > analogDeadzone then d4 ||| DIR_RIGHT
              else if x < -analogDeadzone then d4 ||| DIR_LEFT else d4
    let d6 := if y > analogDeadzone then d5 ||| DIR_DOWN
              else if y < -analogDeadzone then d5 ||| DIR_UP else d5
    d6
  else d4

/-- The D-pad part of `directionOf` alone (`direction` as it stands just
before the analog-stick block). -/
def dpadDirectionOf (snap : Snapshot) : Nat :=
  let d0 := DIR_NONE
  let d1 := if snap.button 11 then d0 ||| DIR_UP else d0
  let d2 := if snap.button 12 then d1 ||| DIR_DOWN else d1
  let d3 := if snap.button 13 then d2 ||| DIR_LEFT else d2
  if snap.button 14 then d3 ||| DIR_RIGHT else d3

/-- The analog-stick contribution of `directionOf` alone: the bits the
stick block ORs into `direction`. -/
def stickDirectionOf (x y : Int) : Nat :=
  if x.natAbs > 8000 ∨ y.natAbs > 8000 then
    let d5 := if x > analogDeadzone then DIR_NONE ||| DIR_RIGHT
              else if x < -analogDeadzone then DIR_NONE ||| DIR_LEFT else DIR_NONE
    if y > analogDeadzone then d5 ||| DIR_DOWN
    else if y < -analogDeadzone then d5 ||| DIR_UP else d5
  else DIR_NONE

/-- `handleDirectionalInputs` from variant B: compute the direction mask,
press/release each of the four direction keys according to its bit, and
store the mask in `currentDirection`. -/
def handleDirectionalInputs (s : State) (snap : Snapshot) : State × List Event :=
  let direction := directionOf snap
  let r := applyPlan s.pressedKeys
    [("up", decide (direction &&& DIR_UP ≠ 0)),
     ("down", decide (direction &&& DIR_DOWN ≠ 0)),
     ("left", decide (direction &&& DIR_LEFT ≠ 0)),
     ("right", decide (direction &&& DIR_RIGHT ≠ 0))]
  ({ pressedKeys := r.1, currentDirection := direction }, r.2)

/-- `handleButtons` from variant B. -/
def handleButtons (s : State) (snap : Snapshot) : State × List Event :=
  let r := applyPlan s.pressedKeys (buttonKeyMap.map (fun bk => (bk.2, snap.button bk.1)))
  ({ s with pressedKeys := r.1 }, r.2)

/-- `handleTriggers` from variant B: strict comparison against
`triggerThreshold` per trigger axis. -/
def handleTriggers (s : State) (snap : Snapshot) : State × List Event :=
  let r := applyPlan s.pressedKeys
    (triggerKeyMap.map (fun ak => (ak.2, decide (snap.axis ak.1 > triggerThreshold))))
  ({ s with pressedKeys := r.1 }, r.2)

/-- One iteration of variant B's `Run` loop body (after the quit-event
poll): directional inputs, buttons, triggers. -/
def tick (s : State) (snap : Snapshot) : State × List Event :=
  let r1 := handleDirectionalInputs s snap
  let r2 := handleButtons r1.1 snap
  let r3 := handleTriggers r2.1 snap
  (r3.1, r1.2 ++ r2.2 ++ r3.2)

/-- The deferred cleanup of variant B's `Run`. -/
def cleanup (s : State) : List Event :=
  (releaseAllL s.pressedKeys s.pressedKeys).2 ++ [Event.closeController, Event.quitSdl]

end VariantB

namespace Startup

/-- Outcomes of the platform calls made during construction (identical
code in both variants): whether `sdl.Init` succeeds, the value of
`sdl.NumJoysticks()`, whether `sdl.GameControllerOpen(0)` returns a
handle, and whether the `osascript` alert command itself succeeds (its
result is ignored by the program). -/
structure SdlEnv where
  initOk : Bool
  numJoysticks : Int
  openOk : Bool
  alertOk : Bool

/-- Observable process-level actions during startup. -/
inductive SysEvent where
  | alertShown (msg : String)
  | fatalLog (msg : String)
  | controllerDetected
  | loopEntered
deriving DecidableEq, Repr

/-- `showAlert`: run the `osascript` alert and ignore `cmd.Run()`'s
result, so the attempt is recorded whether or not `env.alertOk` holds. -/
def showAlert (_env : SdlEnv) (msg : String) : List SysEvent :=
  [SysEvent.alertShown msg]

/-- `NewControllerMapper`: three fatal checks in sequence, each surfacing
a best-effort alert and returning an error; on success print the detected
controller and return a fresh mapper. -/
def NewControllerMapper (env : SdlEnv) : List SysEvent × Except String Unit :=
  if ¬ env.initOk then
    (showAlert env "Failed to initialize SDL", Except.error "failed to init SDL")
  else if env.numJoysticks < 1 then
    (showAlert env "No game controller detected. Please connect a controller and try again.",
     Except.error "no controller detected")
  else if ¬ env.openOk then
    (showAlert env "Failed to open the game controller. Please reconnect the controller and try again.",
     Except.error "failed to open controller")
  else ([SysEvent.controllerDetected], Except.ok ())

/-- `main` of either variant: on a construction error, show the alert,
log fatally and exit with code 1 without ever entering the `Run` loop; on
success enter the loop and, once it returns after a quit signal, exit
with code 0. -/
def mainGo (env : SdlEnv) : List SysEvent × Nat :=
  let r := NewControllerMapper env
  match r.2 with
  | Except.error e =>
    (r.1 ++ showAlert env ("Failed to initialize controller mapper: " ++ e) ++
      [SysEvent.fatalLog ("Failed to initialize controller mapper: " ++ e)], 1)
  | Except.ok _ => (r.1 ++ [SysEvent.loopEntered], 0)

end Startup

/-! Derived notions used to state the properties: the pressed-set /
emitter-trace agreement invariant, snapshot constructors for the concrete
scenarios of the spec, and runs of several consecutive ticks. -/

/-- The PressedKeySet invariant of the spec: a key is in the set exactly
when the emitter trace has told it `keyDown` and not yet `keyUp`. -/
def KeyInvL (p : List String) (t : List Event) : Prop :=
  ∀ k, k ∈ p ↔ lastIsDown t k = true

/-- A pressed set that is duplicate-free (as every Go map key set is) and
agrees with the emitter trace. -/
def GoodState (p : List String) (t : List Event) : Prop :=
  p.Nodup ∧ KeyInvL p t

/-- A snapshot with every button released, the left stick at `(x, y)` and
both triggers at rest. -/
def mkStickSnap (x y : Int) : Snapshot :=
  { button := fun _ => false, axis := fun i => if i = 0 then x else if i = 1 then y else 0 }

/-- A snapshot with every button released, the stick centered and the two
trigger axes at `(l2, r2)`. -/
def mkTriggerSnap (l2 r2 : Int) : Snapshot :=
  { button := fun _ => false, axis := fun i => if i = 4 then l2 else if i = 5 then r2 else 0 }

/-- A snapshot with exactly one button pressed and all axes at rest. -/
def mkButtonSnap (b : Nat) : Snapshot :=
  { button := fun i => i = b, axis := fun _ => 0 }

/-- A snapshot with one button pressed and the left stick at `(x, y)`. -/
def mkButtonStickSnap (b : Nat) (x y : Int) : Snapshot :=
  { button := fun i => i = b, axis := fun i => if i = 0 then x else if i = 1 then y else 0 }

/-- The completely neutral snapshot. -/
def snapNeutral : Snapshot := mkStickSnap 0 0

/-- Left stick pushed left of the deadzone (the spec's scenario
`X = -20000, Y = 0`). -/
def snapStickLeft : Snapshot := mkStickSnap (-20000) 0

/-- D-pad up held together with the stick pushed up: both sources claim
the same direction. -/
def snapDpadStickUp : Snapshot := mkButtonStickSnap 11 0 (-20000)

/-- D-pad up held with the stick pushed down: opposing directions. -/
def snapDpadUpStickDown : Snapshot := mkButtonStickSnap 11 0 20000

/-- The stick is inside the deadzone on both axes, so neither variant
derives any direction from it. -/
def stickNeutral (snap : Snapshot) : Prop :=
  -8000 ≤ snap.axis 0 ∧ snap.axis 0 ≤ 8000 ∧ -8000 ≤ snap.axis 1 ∧ snap.axis 1 ≤ 8000

/-- No direction's analog activity flag is set in variant A's state. -/
def analogIdle (s : VariantA.State) : Prop :=
  "up" ∉ s.analogState ∧ "down" ∉ s.analogState ∧
    "left" ∉ s.analogState ∧ "right" ∉ s.analogState

/-- The button/trigger portion of one variant A tick, as a single
press/release plan (proved below to agree with `VariantA.tick`). -/
def planA (snap : Snapshot) : List (String × Bool) :=
  VariantA.buttonMap.map (fun bk => (bk.2, snap.button bk.1)) ++
    [("a", (VariantA.areTriggersPressed snap).1), ("s", (VariantA.areTriggersPressed snap).2)]

/-- One variant B tick as a single press/release plan (proved below to
agree with `VariantB.tick`). -/
def planB (snap : Snapshot) : List (String × Bool) :=
  (let direction := VariantB.directionOf snap
   [("up", decide (direction &&& VariantB.DIR_UP ≠ 0)),
    ("down", decide (direction &&& VariantB.DIR_DOWN ≠ 0)),
    ("left", decide (direction &&& VariantB.DIR_LEFT ≠ 0)),
    ("right", decide (direction &&& VariantB.DIR_RIGHT ≠ 0))]) ++
  VariantB.buttonKeyMap.map (fun bk => (bk.2, snap.button bk.1)) ++
  VariantB.triggerKeyMap.map (fun ak => (ak.2, decide (snap.axis ak.1 > VariantB.triggerThreshold)))

/-- Variant A state after ticking once per entry of a list of tick
times, always with the same snapshot. -/
def stateAfterA (s : VariantA.State) (snap : Snapshot) : List Int → VariantA.State
  | [] => s
  | t :: rest => stateAfterA (VariantA.tick s snap t).1 snap rest

/-- Tick times 0, 10, ..., 490 ms: the first 50 iterations of variant A's
10 ms loop. -/
def tickTimes : List Int := (List.range 50).map (fun i => 10 * Int.ofNat i)

/-- The per-direction repeat state machine of variant A driven with the
direction continuously active from a fresh state, ticking every 10 ms:
`repeatTrace i` is the state and the emitted events of the tick at
`t = 10 * i` milliseconds. -/
def repeatTrace : Nat → VariantA.State × List Event
  | 0 => VariantA.handleAnalogDirection VariantA.initState "up" true 0
  | i + 1 => VariantA.handleAnalogDirection (repeatTrace i).1 "up" true (10 * ((i : Int) + 1))

/-- The timestamp `lastAnalogPress["up"]` predicted after the tick at
`t = 10 * i`: 0 until the initial delay has elapsed, afterwards 450 ms
behind the latest pulse time `10 * (5 * (i / 5))`. -/
def expLast (i : Nat) : Int :=
  if i < 50 then 0 else 50 * ((i / 5 : Nat) : Int) - 450

/-- The full predicted state after the tick at `t = 10 * i`. -/
def expStateUp (i : Nat) : VariantA.State :=
  { pressedKeys := ["up"], analogState := ["up"], lastAnalogPress := [("up", expLast i)] }

/-- The events predicted for the tick at `t = 10 * i`: the initial press
at `t = 0`, and a release-then-press pulse at `t = 500, 550, 600, ...`,
i.e. at the ticks with `i ≥ 50` and `i % 5 = 0`. -/
def pulseEvents (i : Nat) : List Event :=
  if i = 0 then [Event.keyDown "up"]
  else if 50 ≤ i ∧ i % 5 = 0 then [Event.keyUp "up", Event.keyDown "up"]
  else []

/-- Variant A state after the first tick on `snapDpadStickUp` from a
fresh state. -/
def s1DpadStickUp : VariantA.State :=
  { pressedKeys := ["up"], analogState := ["up"], lastAnalogPress := [("up", 0)] }

/-- Variant A state after the first tick on `snapStickLeft` from a fresh
state. -/
def s1StickLeft : VariantA.State :=
  { pressedKeys := ["left"], analogState := ["left"], lastAnalogPress := [("left", 0)] }

/-- Variant A state after the first tick on `snapDpadUpStickDown` from a
fresh state. -/
def s1DpadUpStickDown : VariantA.State :=
  { pressedKeys := ["down", "up"], analogState := ["down"], lastAnalogPress := [("down", 0)] }

/-- Variant B state after `n` ticks on the same snapshot. -/
def runB (s : VariantB.State) (snap : Snapshot) : Nat → VariantB.State
  | 0 => s
  | n + 1 => (VariantB.tick (runB s snap n) snap).1

/-! Generic lemmas about the shared pressed-set primitives. -/

theorem mem_pressKeyL {p : List String} {k a : String} :
    a ∈ (pressKeyL p k).1 ↔ a = k ∨ a ∈ p := by
  unfold pressKeyL
  split
  · rename_i hk
    constructor
    · exact Or.inr
    · rintro (rfl | h)
      · exact hk
      · exact h
  · simp [List.mem_cons]

theorem nodup_pressKeyL {p : List String} {k : String} (h : p.Nodup) :
    (pressKeyL p k).1.Nodup := by
  unfold pressKeyL
  split
  · exact h
  · rename_i hk
    exact List.nodup_cons.mpr ⟨hk, h⟩

theorem mem_releaseKeyL {p : List String} {k a : String} (h : p.Nodup) :
    a ∈ (releaseKeyL p k).1 ↔ a ≠ k ∧ a ∈ p := by
  unfold releaseKeyL
  split
  · exact h.mem_erase_iff
  · rename_i hk
    constructor
    · intro ha
      refine ⟨?_, ha⟩
      rintro rfl
      exact hk ha
    · exact And.right

theorem nodup_releaseKeyL {p : List String} {k : String} (h : p.Nodup) :
    (releaseKeyL p k).1.Nodup := by
  unfold releaseKeyL
  split
  · exact h.erase k
  · exact h

theorem mem_setKeyL_self {p : List String} {k : String} {b : Bool} (h : p.Nodup) :
    k ∈ (setKeyL p k b).1 ↔ b = true := by
  cases b <;> simp [setKeyL, mem_pressKeyL, mem_releaseKeyL h]

theorem mem_setKeyL_other {p : List String} {k a : String} {b : Bool} (hne : a ≠ k) :
    a ∈ (setKeyL p k b).1 ↔ a ∈ p := by
  cases b <;> simp only [setKeyL, Bool.false_eq_true, if_false, if_true]
  · unfold releaseKeyL
    split
    · exact List.mem_erase_of_ne hne
    · exact Iff.rfl
  · rw [mem_pressKeyL]
    simp [hne]

theorem nodup_setKeyL {p : List String} {k : String} {b : Bool} (h : p.Nodup) :
    (setKeyL p k b).1.Nodup := by
  cases b
  · exact nodup_releaseKeyL h
  · exact nodup_pressKeyL h

theorem setKeyL_silent {p : List String} {k : String} {b : Bool} (h : k ∈ p ↔ b = true) :
    setKeyL p k b = (p, []) := by
  cases b
  · have hk : k ∉ p := by simp [h]
    simp [setKeyL, releaseKeyL, hk]
  · have hk : k ∈ p := h.mpr rfl
    simp [setKeyL, pressKeyL, hk]

theorem nodup_applyPlan {plan : List (String × Bool)} {p : List String} (h : p.Nodup) :
    (applyPlan p plan).1.Nodup := by
  induction plan generalizing p with
  | nil => exact h
  | cons kb rest ih => exact ih (nodup_setKeyL h)

theorem mem_applyPlan_other {plan : List (String × Bool)} {p : List String} {a : String}
    (ha : a ∉ plan.map Prod.fst) :
    a ∈ (applyPlan p plan).1 ↔ a ∈ p := by
  induction plan generalizing p with
  | nil => exact Iff.rfl
  | cons kb rest ih =>
    simp only [List.map_cons, List.mem_cons, not_or] at ha
    exact (ih ha.2).trans (mem_setKeyL_other ha.1)

theorem applyPlan_silent {plan : List (String × Bool)} {p : List String}
    (h : ∀ kb ∈ plan, (kb.1 ∈ p ↔ kb.2 = true)) :
    applyPlan p plan = (p, []) := by
  induction plan with
  | nil => rfl
  | cons kb rest ih =>
    have h1 := setKeyL_silent (h kb (List.mem_cons_self kb rest))
    show (let r1 := setKeyL p kb.1 kb.2
          let r2 := applyPlan r1.1 rest
          (r2.1, r1.2 ++ r2.2)) = (p, [])
    rw [h1]
    have h2 := ih (fun x hx => h x (List.mem_cons_of_mem kb hx))
    simp [h2]

theorem applyPlan_selfstab {plan : List (String × Bool)} {p : List String}
    (hp : p.Nodup) (hplan : (plan.map Prod.fst).Nodup) :
    ∀ kb ∈ plan, (kb.1 ∈ (applyPlan p plan).1 ↔ kb.2 = true) := by
  induction plan generalizing p with
  | nil => intro kb h; cases h
  | cons x rest ih =>
    intro kb hkb
    simp only [List.map_cons, List.nodup_cons] at hplan
    rcases List.mem_cons.mp hkb with rfl | hmem
    · have hother : kb.1 ∉ rest.map Prod.fst := hplan.1
      show kb.1 ∈ (applyPlan (setKeyL p kb.1 kb.2).1 rest).1 ↔ kb.2 = true
      rw [mem_applyPlan_other hother]
      exact mem_setKeyL_self hp
    · exact ih (nodup_setKeyL hp) hplan.2 kb hmem

theorem applyPlan_restore {plan : List (String × Bool)} {p : List String}
    (hp : p.Nodup) (hplan : (plan.map Prod.fst).Nodup) :
    applyPlan (applyPlan p plan).1 plan = ((applyPlan p plan).1, []) :=
  applyPlan_silent (applyPlan_selfstab hp hplan)

theorem applyPlan_append {P Q : List (String × Bool)} {p : List String} :
    applyPlan p (P ++ Q) =
      ((applyPlan (applyPlan p P).1 Q).1, (applyPlan p P).2 ++ (applyPlan (applyPlan p P).1 Q).2) := by
  induction P generalizing p with
  | nil => simp [applyPlan]
  | cons kb rest ih =>
    simp only [applyPlan, List.cons_append, List.append_eq]
    rw [ih]
    simp [List.append_assoc]

/-! Lemmas connecting the pressed set to the emitter trace. -/

theorem lastIsDown_append (t u : List Event) (k : String) :
    lastIsDown (t ++ u) k = u.foldl (heldStep k) (lastIsDown t k) := by
  unfold lastIsDown
  exact List.foldl_append (heldStep k) false t u

theorem lastIsDown_keyDown (t : List Event) (k a : String) :
    lastIsDown (t ++ [Event.keyDown k]) a = if k = a then true else lastIsDown t a := by
  rw [lastIsDown_append]
  simp [heldStep]

theorem lastIsDown_keyUp (t : List Event) (k a : String) :
    lastIsDown (t ++ [Event.keyUp k]) a = if k = a then false else lastIsDown t a := by
  rw [lastIsDown_append]
  simp [heldStep]

theorem good_pressKeyL {p : List String} {t : List Event} {k : String} (h : GoodState p t) :
    GoodState (pressKeyL p k).1 (t ++ (pressKeyL p k).2) := by
  obtain ⟨hnd, hinv⟩ := h
  unfold pressKeyL
  split
  · exact ⟨hnd, by simpa using hinv⟩
  · rename_i hk
    refine ⟨List.nodup_cons.mpr ⟨hk, hnd⟩, fun a => ?_⟩
    rw [lastIsDown_keyDown]
    by_cases hak : k = a
    · subst hak
      simp
    · have : a ≠ k := fun hh => hak hh.symm
      simp [List.mem_cons, this, hak, hinv a]

theorem good_releaseKeyL {p : List String} {t : List Event} {k : String} (h : GoodState p t) :
    GoodState (releaseKeyL p k).1 (t ++ (releaseKeyL p k).2) := by
  obtain ⟨hnd, hinv⟩ := h
  unfold releaseKeyL
  split
  · rename_i hk
    refine ⟨hnd.erase k, fun a => ?_⟩
    rw [lastIsDown_keyUp]
    rw [hnd.mem_erase_iff]
    by_cases hak : k = a
    · subst hak
      simp
    · have : a ≠ k := fun hh => hak hh.symm
      simp [this, hak, hinv a]
  · exact ⟨hnd, by simpa using hinv⟩

theorem good_setKeyL {p : List String} {t : List Event} {k : String} {b : Bool}
    (h : GoodState p t) :
    GoodState (setKeyL p k b).1 (t ++ (setKeyL p k b).2) := by
  cases b
  · exact good_releaseKeyL h
  · exact good_pressKeyL h

theorem good_applyPlan (plan : List (String × Bool)) {p : List String} {t : List Event}
    (h : GoodState p t) :
    GoodState (applyPlan p plan).1 (t ++ (applyPlan p plan).2) := by
  induction plan generalizing p t with
  | nil => simpa [applyPlan] using h
  | cons kb rest ih =>
    simp only [applyPlan]
    have h1 := good_setKeyL (k := kb.1) (b := kb.2) h
    have h2 := ih h1
    simpa [List.append_assoc] using h2

/-! Lemmas about the cleanup loop. -/

theorem releaseAllL_spec {l p : List String} (hl : l.Nodup) (hp : p.Nodup)
    (hsub : ∀ k ∈ l, k ∈ p) :
    (releaseAllL l p).2 = l.map Event.keyUp ∧
      ∀ a, (a ∈ (releaseAllL l p).1 ↔ a ∈ p ∧ a ∉ l) := by
  induction l generalizing p with
  | nil => simp [releaseAllL]
  | cons k rest ih =>
    have hkp : k ∈ p := hsub k (List.mem_cons_self k rest)
    have hstep : releaseKeyL p k = (p.erase k, [Event.keyUp k]) := by
      simp [releaseKeyL, hkp]
    have hnd' : (p.erase k).Nodup := hp.erase k
    have hknr : k ∉ rest := (List.nodup_cons.mp hl).1
    have hsub' : ∀ x ∈ rest, x ∈ p.erase k := by
      intro x hx
      have hxk : x ≠ k := fun hh => hknr (hh ▸ hx)
      exact (List.mem_erase_of_ne hxk).mpr (hsub x (List.mem_cons_of_mem k hx))
    have ihr := ih (List.nodup_cons.mp hl).2 hnd' hsub'
    constructor
    · simp only [releaseAllL, hstep]
      rw [ihr.1]
      simp
    · intro a
      simp only [releaseAllL, hstep]
      rw [ihr.2 a, hp.mem_erase_iff]
      constructor
      · rintro ⟨⟨hak, hap⟩, har⟩
        exact ⟨hap, by simp [hak, har]⟩
      · rintro ⟨hap, hnotin⟩
        simp only [List.mem_cons, not_or] at hnotin
        exact ⟨⟨hnotin.1, hap⟩, hnotin.2⟩

theorem countEvent_append (l m : List Event) (e : Event) :
    countEvent (l ++ m) e = countEvent l e + countEvent m e := by
  induction l with
  | nil => simp [countEvent]
  | cons x rest ih =>
    simp only [List.cons_append, countEvent, List.append_eq, ih]
    omega

theorem countEvent_map_keyUp {p : List String} (hnd : p.Nodup) (k : String) :
    countEvent (p.map Event.keyUp) (Event.keyUp k) = if k ∈ p then 1 else 0 := by
  induction p with
  | nil => simp [countEvent]
  | cons a rest ih =>
    have ⟨hanr, hndr⟩ := List.nodup_cons.mp hnd
    simp only [List.map_cons, countEvent, ih hndr]
    by_cases hak : a = k
    · subst hak
      simp [hanr]
    · have hne : ¬ (Event.keyUp a = Event.keyUp k) := by simp [hak]
      have hka : ¬ k = a := fun hh => hak hh.symm
      simp [hne, List.mem_cons, hka]

theorem countEvent_tail_zero (k : String) :
    countEvent [Event.closeController, Event.quitSdl] (Event.keyUp k) = 0 := by
  simp [countEvent]

/-! Equations relating the tick bodies to their press/release plans. -/

theorem tickA_eq (s : VariantA.State) (snap : Snapshot) (now : Int) :
    VariantA.tick s snap now =
      (let r := applyPlan s.pressedKeys (planA snap)
       let r2 := VariantA.handleAnalogStick { s with pressedKeys := r.1 }
         (snap.axis 0) (snap.axis 1) now
       (r2.1, r.2 ++ r2.2)) := by
  simp [VariantA.tick, planA, applyPlan_append, applyPlan, List.append_assoc]

theorem tickB_eq (s : VariantB.State) (snap : Snapshot) :
    VariantB.tick s snap =
      ({ pressedKeys := (applyPlan s.pressedKeys (planB snap)).1,
         currentDirection := VariantB.directionOf snap },
       (applyPlan s.pressedKeys (planB snap)).2) := by
  simp [VariantB.tick, VariantB.handleDirectionalInputs, VariantB.handleButtons,
    VariantB.handleTriggers, planB, applyPlan, applyPlan_append, List.append_assoc]

theorem planA_keys (snap : Snapshot) :
    (planA snap).map Prod.fst =
      ["shift", "space", "LCTRL", "x", "tab", "k", "esc", "3", "2", "q", "w",
       "up", "down", "left", "right", "a", "s"] := by
  simp [planA, VariantA.buttonMap]

theorem planB_keys (snap : Snapshot) :
    (planB snap).map Prod.fst =
      ["up", "down", "left", "right",
       "shift", "space", "lctrl", "x", "tab", "k", "esc", "3", "2", "q", "w", "a", "s"] := by
  simp [planB, VariantB.buttonKeyMap, VariantB.triggerKeyMap]

theorem handleAnalogDirection_inactive_noop {s : VariantA.State} {d : String} {now : Int}
    (h : d ∉ s.analogState) :
    VariantA.handleAnalogDirection s d false now = (s, []) := by
  simp [VariantA.handleAnalogDirection, h]

theorem handleAnalogStick_neutral {s : VariantA.State} {x y now : Int}
    (hidle : analogIdle s) (hx1 : -8000 ≤ x) (hx2 : x ≤ 8000) (hy1 : -8000 ≤ y) (hy2 : y ≤ 8000) :
    VariantA.handleAnalogStick s x y now = (s, []) := by
  obtain ⟨hu, hd, hl, hr⟩ := hidle
  have h1 : decide (x > VariantA.deadzone) = false := by
    simp [VariantA.deadzone]
    omega
  have h2 : decide (x < -VariantA.deadzone) = false := by
    simp [VariantA.deadzone]
    omega
  have h3 : decide (y > VariantA.deadzone) = false := by
    simp [VariantA.deadzone]
    omega
  have h4 : decide (y < -VariantA.deadzone) = false := by
    simp [VariantA.deadzone]
    omega
  simp [VariantA.handleAnalogStick, h1, h2, h3, h4,
    handleAnalogDirection_inactive_noop hu, handleAnalogDirection_inactive_noop hd,
    handleAnalogDirection_inactive_noop hl, handleAnalogDirection_inactive_noop hr]

theorem tickA_neutral {s : VariantA.State} {snap : Snapshot} {now : Int}
    (hidle : analogIdle s) (hsn : stickNeutral snap) :
    VariantA.tick s snap now =
      ({ s with pressedKeys := (applyPlan s.pressedKeys (planA snap)).1 },
       (applyPlan s.pressedKeys (planA snap)).2) := by
  obtain ⟨ha, hb, hc, hd⟩ := hsn
  rw [tickA_eq]
  have hidle2 : analogIdle { s with pressedKeys := (applyPlan s.pressedKeys (planA snap)).1 } :=
    hidle
  simp only [handleAnalogStick_neutral hidle2 ha hb hc hd]
  simp

/-! Variant A under a constantly held D-pad-up plus stick-up snapshot:
the state reached by the first tick is a fixed point for every tick time
strictly inside the 500 ms initial delay, and the tick at 500 ms emits a
release-then-press pulse although the snapshot never changed. -/

theorem tickA_s1DpadStickUp_fix (t : Int) (h1 : 0 < t) (h2 : t < 500) :
    VariantA.tick s1DpadStickUp snapDpadStickUp t = (s1DpadStickUp, []) := by
  simp [VariantA.tick, VariantA.handleAnalogStick, VariantA.handleAnalogDirection,
    VariantA.keyMap, VariantA.analogSet, VariantA.lookupTime, VariantA.storeTime,
    VariantA.eraseTime, VariantA.initialDelay, VariantA.deadzone, VariantA.buttonMap,
    VariantA.areTriggersPressed, VariantA.L2_AXIS, VariantA.R2_AXIS, VariantA.TRIGGER_THRESHOLD,
    applyPlan, setKeyL, pressKeyL, releaseKeyL, snapDpadStickUp, mkButtonStickSnap, s1DpadStickUp]
  omega

theorem stateAfterA_append (s : VariantA.State) (snap : Snapshot) (l1 l2 : List Int) :
    stateAfterA s snap (l1 ++ l2) = stateAfterA (stateAfterA s snap l1) snap l2 := by
  induction l1 generalizing s with
  | nil => rfl
  | cons t rest ih => simp [stateAfterA, ih]

set_option maxRecDepth 4000 in
theorem stateAfterA_tickTimes :
    stateAfterA VariantA.initState snapDpadStickUp tickTimes = s1DpadStickUp := by
  have key : ∀ n, 1 ≤ n → n ≤ 50 →
      stateAfterA VariantA.initState snapDpadStickUp
        ((List.range n).map (fun i => 10 * Int.ofNat i)) = s1DpadStickUp := by
    intro n
    induction n with
    | zero => omega
    | succ m ih =>
      intro _ hle
      rw [List.range_succ, List.map_append, stateAfterA_append]
      rcases Nat.eq_zero_or_pos m with rfl | hm
      · simp only [List.range_zero, List.map_nil, List.map_cons, List.map_nil]
        show stateAfterA VariantA.initState snapDpadStickUp [10 * Int.ofNat 0] = _
        simp only [stateAfterA]
        decide
      · rw [ih hm (by omega)]
        simp only [List.map_cons, List.map_nil, stateAfterA]
        rw [tickA_s1DpadStickUp_fix (10 * Int.ofNat m)
          (by simp only [Int.ofNat_eq_natCast]; omega)
          (by simp only [Int.ofNat_eq_natCast]; omega)]
  exact key 50 (by omega) (by omega)

set_option maxRecDepth 4000 in
/-- C1: the claim as stated is false on the code.  Feed variant A the
identical snapshot (D-pad up pressed, stick up) at ticks
t = 0, 10, ..., 490, 500 ms: every snapshot equals the previous tick's,
yet the tick at t = 500 ms (after the 500 ms repeat delay) emits a
`keyUp`/`keyDown` pulse instead of zero calls. -/
theorem C1_counterexample :
    (VariantA.tick (stateAfterA VariantA.initState snapDpadStickUp tickTimes)
        snapDpadStickUp 500).2 = [Event.keyUp "up", Event.keyDown "up"] := by
  rw [stateAfterA_tickTimes]
  decide

/-- C1 (amended): for sequences of identical snapshots, after the first
tick's emitter calls every later tick issues zero `keyDown`/`keyUp`
calls, provided that in variant A the analog stick stays inside the
deadzone (when a stick direction is active, variant A's repeat logic and
its D-pad button loop do issue further calls); variant B satisfies the
property for every identical snapshot.  States are constrained only by
the Go-map facts that the pressed set is duplicate-free and (for variant
A) no analog activity flag is stale. -/
theorem C1_idempotence_amended :
    (∀ (s : VariantB.State) (snap : Snapshot), s.pressedKeys.Nodup →
      VariantB.tick (VariantB.tick s snap).1 snap = ((VariantB.tick s snap).1, [])) ∧
    (∀ (s : VariantA.State) (snap : Snapshot) (t1 t2 : Int),
      s.pressedKeys.Nodup → analogIdle s → stickNeutral snap →
      VariantA.tick (VariantA.tick s snap t1).1 snap t2 = ((VariantA.tick s snap t1).1, [])) := by
  constructor
  · intro s snap hnd
    have hkeys : ((planB snap).map Prod.fst).Nodup := by
      rw [planB_keys]
      decide
    have hres := applyPlan_restore (p := s.pressedKeys) hnd hkeys
    rw [tickB_eq s snap, tickB_eq]
    simp [hres]
  · intro s snap t1 t2 hnd hidle hsn
    have hkeys : ((planA snap).map Prod.fst).Nodup := by
      rw [planA_keys]
      decide
    have hres := applyPlan_restore (p := s.pressedKeys) hnd hkeys
    rw [tickA_neutral hidle hsn]
    have hidle1 : analogIdle { s with pressedKeys := (applyPlan s.pressedKeys (planA snap)).1 } :=
      hidle
    rw [tickA_neutral hidle1 hsn]
    simp [hres]

/-- Witness for the amended C1 at a concrete input: a fresh state of
either variant fed the neutral snapshot twice is silent on the second
tick. -/
theorem C1_idempotence_amended_witness :
    VariantB.tick (VariantB.tick VariantB.initState snapNeutral).1 snapNeutral
        = ((VariantB.tick VariantB.initState snapNeutral).1, []) ∧
      VariantA.tick (VariantA.tick VariantA.initState snapNeutral 0).1 snapNeutral 10
        = ((VariantA.tick VariantA.initState snapNeutral 0).1, []) :=
  ⟨C1_idempotence_amended.1 VariantB.initState snapNeutral (by simp [VariantB.initState]),
   C1_idempotence_amended.2 VariantA.initState snapNeutral 0 10
     (by simp [VariantA.initState])
     (by simp [analogIdle, VariantA.initState])
     (by simp [stickNeutral, snapNeutral, mkStickSnap])⟩

/-! C2: the shutdown sequence. -/

theorem cleanup_core {p : List String} (hnd : p.Nodup) :
    (releaseAllL p p).2 = p.map Event.keyUp ∧ (releaseAllL p p).1 = [] ∧
    ∀ k, countEvent ((releaseAllL p p).2 ++ [Event.closeController, Event.quitSdl])
        (Event.keyUp k) = if k ∈ p then 1 else 0 := by
  have h := releaseAllL_spec hnd hnd (fun k hk => hk)
  refine ⟨h.1, ?_, ?_⟩
  · rw [List.eq_nil_iff_forall_not_mem]
    intro a ha
    rcases (h.2 a).mp ha with ⟨h1, h2⟩
    exact h2 h1
  · intro k
    rw [h.1, countEvent_append, countEvent_map_keyUp hnd k, countEvent_tail_zero]
    omega

/-- C2: on a quit signal with a non-empty pressed set, the deferred
cleanup of either variant's `Run` emits exactly one `keyUp` per held key
(none for other keys), leaves no key held, and performs all `keyUp`
calls before closing the controller handle, which precedes `sdl.Quit()`;
this is visible in the literal shape
`pressed.map keyUp ++ [closeController, quitSdl]` of the cleanup trace.
The state at the quit tick is arbitrary; only the Go-map fact that the
pressed set is duplicate-free is assumed. -/
theorem C2_shutdown_release_all :
    (∀ s : VariantA.State, s.pressedKeys.Nodup → s.pressedKeys ≠ [] →
      VariantA.cleanup s =
          s.pressedKeys.map Event.keyUp ++ [Event.closeController, Event.quitSdl] ∧
        (releaseAllL s.pressedKeys s.pressedKeys).1 = [] ∧
        ∀ k, countEvent (VariantA.cleanup s) (Event.keyUp k) =
          if k ∈ s.pressedKeys then 1 else 0) ∧
    (∀ s : VariantB.State, s.pressedKeys.Nodup → s.pressedKeys ≠ [] →
      VariantB.cleanup s =
          s.pressedKeys.map Event.keyUp ++ [Event.closeController, Event.quitSdl] ∧
        (releaseAllL s.pressedKeys s.pressedKeys).1 = [] ∧
        ∀ k, countEvent (VariantB.cleanup s) (Event.keyUp k) =
          if k ∈ s.pressedKeys then 1 else 0) := by
  constructor
  · intro s hnd _
    have h := cleanup_core hnd
    exact ⟨by rw [VariantA.cleanup, h.1], h.2.1, fun k => by rw [VariantA.cleanup]; exact h.2.2 k⟩
  · intro s hnd _
    have h := cleanup_core hnd
    exact ⟨by rw [VariantB.cleanup, h.1], h.2.1, fun k => by rw [VariantB.cleanup]; exact h.2.2 k⟩

/-- Witness for C2 at a concrete state holding two keys in each variant. -/
theorem C2_shutdown_release_all_witness :
    (VariantA.cleanup { pressedKeys := ["up", "a"], analogState := ["up"],
                        lastAnalogPress := [("up", 40)] } =
        [Event.keyUp "up", Event.keyUp "a", Event.closeController, Event.quitSdl]) ∧
    (VariantB.cleanup { pressedKeys := ["left", "s"], currentDirection := 8 } =
        [Event.keyUp "left", Event.keyUp "s", Event.closeController, Event.quitSdl]) := by
  constructor
  · have h := (C2_shutdown_release_all.1
      { pressedKeys := ["up", "a"], analogState := ["up"], lastAnalogPress := [("up", 40)] }
      (by decide) (by decide)).1
    rw [h]
    rfl
  · have h := (C2_shutdown_release_all.2
      { pressedKeys := ["left", "s"], currentDirection := 8 }
      (by decide) (by decide)).1
    rw [h]
    rfl

theorem repeatTrace_spec : ∀ i, repeatTrace i = (expStateUp i, pulseEvents i) := by
  intro i
  induction i with
  | zero =>
    show VariantA.handleAnalogDirection VariantA.initState "up" true 0 = _
    decide
  | succ i ih =>
    show VariantA.handleAnalogDirection (repeatTrace i).1 "up" true (10 * ((i : Int) + 1)) = _
    rw [ih]
    by_cases hc : (50 ≤ i + 1 ∧ (i + 1) % 5 = 0)
    · have hge : 10 * ((i : Int) + 1) - expLast i ≥ 500 := by
        unfold expLast
        split <;> omega
      have hstep : VariantA.handleAnalogDirection (expStateUp i) "up" true (10 * ((i : Int) + 1)) =
          ({ pressedKeys := ["up"], analogState := ["up"],
             lastAnalogPress := [("up", 10 * ((i : Int) + 1) - 500 + 50)] },
           [Event.keyUp "up", Event.keyDown "up"]) := by
        simp [VariantA.handleAnalogDirection, VariantA.keyMap, VariantA.lookupTime,
          VariantA.storeTime, VariantA.initialDelay, VariantA.repeatDelay, expStateUp,
          releaseKeyL, pressKeyL, hge]
      rw [hstep]
      have h1 : 10 * ((i : Int) + 1) - 500 + 50 = expLast (i + 1) := by
        unfold expLast
        split <;> omega
      have h2 : pulseEvents (i + 1) = [Event.keyUp "up", Event.keyDown "up"] := by
        unfold pulseEvents
        rw [if_neg (by omega), if_pos hc]
      rw [h2, expStateUp, ← h1]
    · have hlt : ¬ (10 * ((i : Int) + 1) - expLast i ≥ 500) := by
        unfold expLast
        split <;> omega
      have hstep : VariantA.handleAnalogDirection (expStateUp i) "up" true (10 * ((i : Int) + 1)) =
          (expStateUp i, []) := by
        simp [VariantA.handleAnalogDirection, VariantA.keyMap, VariantA.lookupTime,
          VariantA.initialDelay, expStateUp, hlt]
      rw [hstep]
      have h1 : expLast (i + 1) = expLast i := by
        unfold expLast
        split <;> split <;> omega
      have h2 : pulseEvents (i + 1) = [] := by
        unfold pulseEvents
        rw [if_neg (by omega), if_neg hc]
      rw [h2]
      simp [expStateUp, h1]

/-- C3: variant A's per-direction repeat machine, driven with the
direction continuously active from t = 0 and ticked every 10 ms, emits a
key press pulse at t = 0, nothing before t = 500 ms, and a
release-then-press pulse exactly at t = 500, 550, 600, ... ms (tick
indices i with i >= 50 and i % 5 = 0): after a pulse the timestamp is set
to now - initialDelay + repeatDelay, so the next repeat falls due 50 ms
after the decaying pulse, not 500 ms after it. -/
theorem C3_repeat_timing : ∀ i, (repeatTrace i).2 = pulseEvents i := by
  intro i
  rw [repeatTrace_spec i]

/-! C4: direction merge when D-pad and stick claim directions at once. -/

theorem runB_stable {s0 s1 : VariantB.State} {snap : Snapshot}
    (h0 : (VariantB.tick s0 snap).1 = s1) (hfix : VariantB.tick s1 snap = (s1, [])) :
    ∀ n, 1 ≤ n → runB s0 snap n = s1 := by
  intro n hn
  induction n with
  | zero => omega
  | succ m ih =>
    rcases Nat.eq_zero_or_pos m with rfl | hm
    · exact h0
    · show (VariantB.tick (runB s0 snap m) snap).1 = s1
      rw [ih hm, hfix]

set_option maxRecDepth 4000 in
/-- C4: in variant B the claim holds in full: with D-pad up and stick up
agreeing, exactly one `keyDown("up")` is emitted and every later tick is
silent with the key still held; with D-pad up against stick down both
direction keys are pressed once, held simultaneously, and no later tick
toggles anything.  Variant A never double-presses when the sources agree
(one `keyDown("up")`, then silence within the initial delay), but for
opposing directions its button loop releases the stick-held `"down"` key
on the very next tick (the D-pad `down` button is up, and buttons 11-14
are mapped onto the same direction keys), so both keys do not stay held:
the final conjunct evaluates the code at that failing input. -/
theorem C4_direction_merge :
    ((VariantB.tick VariantB.initState snapDpadStickUp).2 = [Event.keyDown "up"] ∧
      ∀ n, 1 ≤ n →
        runB VariantB.initState snapDpadStickUp n =
            (VariantB.tick VariantB.initState snapDpadStickUp).1 ∧
          "up" ∈ (runB VariantB.initState snapDpadStickUp n).pressedKeys ∧
          (VariantB.tick (runB VariantB.initState snapDpadStickUp n) snapDpadStickUp).2 = []) ∧
    ((VariantB.tick VariantB.initState snapDpadUpStickDown).2 =
        [Event.keyDown "up", Event.keyDown "down"] ∧
      ∀ n, 1 ≤ n →
        "up" ∈ (runB VariantB.initState snapDpadUpStickDown n).pressedKeys ∧
          "down" ∈ (runB VariantB.initState snapDpadUpStickDown n).pressedKeys ∧
          (VariantB.tick (runB VariantB.initState snapDpadUpStickDown n) snapDpadUpStickDown).2
            = []) ∧
    ((VariantA.tick VariantA.initState snapDpadStickUp 0).2 = [Event.keyDown "up"] ∧
      (VariantA.tick VariantA.initState snapDpadStickUp 0).1 = s1DpadStickUp ∧
      ∀ t : Int, 0 < t → t < 500 →
        VariantA.tick s1DpadStickUp snapDpadStickUp t = (s1DpadStickUp, [])) ∧
    ((VariantA.tick VariantA.initState snapDpadUpStickDown 0).2 =
        [Event.keyDown "up", Event.keyDown "down"] ∧
      (VariantA.tick VariantA.initState snapDpadUpStickDown 0).1 = s1DpadUpStickDown ∧
      (VariantA.tick s1DpadUpStickDown snapDpadUpStickDown 10).2 = [Event.keyUp "down"]) := by
  have hfix1 : VariantB.tick (VariantB.tick VariantB.initState snapDpadStickUp).1
      snapDpadStickUp = ((VariantB.tick VariantB.initState snapDpadStickUp).1, []) := by
    decide
  have hfix2 : VariantB.tick (VariantB.tick VariantB.initState snapDpadUpStickDown).1
      snapDpadUpStickDown = ((VariantB.tick VariantB.initState snapDpadUpStickDown).1, []) := by
    decide
  refine ⟨⟨by decide, ?_⟩, ⟨by decide, ?_⟩, ⟨by decide, by decide, tickA_s1DpadStickUp_fix⟩,
    by decide, by decide, by decide⟩
  · intro n hn
    have hr := runB_stable rfl hfix1 n hn
    rw [hr, hfix1]
    exact ⟨rfl, by decide, rfl⟩
  · intro n hn
    have hr := runB_stable rfl hfix2 n hn
    rw [hr, hfix2]
    exact ⟨by decide, by decide, rfl⟩

set_option maxRecDepth 4000 in
/-- Witness for C4's quantified parts at concrete inputs. -/
theorem C4_direction_merge_witness :
    runB VariantB.initState snapDpadUpStickDown 2 =
        (VariantB.tick VariantB.initState snapDpadUpStickDown).1 ∧
      VariantA.tick s1DpadStickUp snapDpadStickUp 10 = (s1DpadStickUp, []) := by
  constructor
  · have h := (C4_direction_merge.1.2 2 (by omega)).1
    have h2 := runB_stable rfl (by decide :
      VariantB.tick (VariantB.tick VariantB.initState snapDpadUpStickDown).1 snapDpadUpStickDown
        = ((VariantB.tick VariantB.initState snapDpadUpStickDown).1, [])) 2 (by omega)
    exact h2
  · exact C4_direction_merge.2.2.1.2.2 10 (by omega) (by omega)

/-! C5: the left-stick scenario `X = -20000, Y = 0`. -/

set_option maxRecDepth 4000 in
/-- C5: with the left stick at `X = -20000, Y = 0` and every button
released, both variants emit exactly `keyDown("left")` on the first tick
and never touch `"right"`, `"up"` or `"down"`.  Variant B then stays
silent on every later tick, as the claim demands; variant A instead
emits `keyUp("left")` on the second tick (well inside the initial
delay), because its button loop maps the released D-pad-left button 13
onto the same `"left"` key the analog handler holds: the last conjunct
evaluates the code at that failing input. -/
theorem C5_stick_left_scenario :
    ((VariantB.tick VariantB.initState snapStickLeft).2 = [Event.keyDown "left"] ∧
      ∀ n, 1 ≤ n →
        (VariantB.tick (runB VariantB.initState snapStickLeft n) snapStickLeft).2 = []) ∧
    ((VariantA.tick VariantA.initState snapStickLeft 0).2 = [Event.keyDown "left"] ∧
      (VariantA.tick VariantA.initState snapStickLeft 0).1 = s1StickLeft ∧
      (VariantA.tick s1StickLeft snapStickLeft 10).2 = [Event.keyUp "left"]) := by
  have hfix : VariantB.tick (VariantB.tick VariantB.initState snapStickLeft).1 snapStickLeft
      = ((VariantB.tick VariantB.initState snapStickLeft).1, []) := by
    decide
  refine ⟨⟨by decide, ?_⟩, by decide, by decide, by decide⟩
  intro n hn
  rw [runB_stable rfl hfix n hn, hfix]

set_option maxRecDepth 4000 in
/-- Witness for C5's quantified part at a concrete input. -/
theorem C5_stick_left_scenario_witness :
    (VariantB.tick (runB VariantB.initState snapStickLeft 2) snapStickLeft).2 = [] :=
  C5_stick_left_scenario.1.2 2 (by omega)

/-! C6: the pressed set mirrors the emitter trace. -/

theorem good_handleAnalogDirection {s : VariantA.State} {t : List Event}
    (d : String) (b : Bool) (now : Int) (h : GoodState s.pressedKeys t) :
    GoodState (VariantA.handleAnalogDirection s d b now).1.pressedKeys
      (t ++ (VariantA.handleAnalogDirection s d b now).2) := by
  unfold VariantA.handleAnalogDirection
  cases b
  · simp only [Bool.false_eq_true, if_false]
    split
    · exact good_releaseKeyL h
    · simpa using h
  · simp only [if_true]
    split
    · exact good_pressKeyL h
    · split
      · have h2 := good_pressKeyL (k := VariantA.keyMap d) (good_releaseKeyL (k := VariantA.keyMap d) h)
        simpa [List.append_assoc] using h2
      · simpa using h

theorem good_handleAnalogStick (s : VariantA.State) (x y now : Int) {t : List Event}
    (h : GoodState s.pressedKeys t) :
    GoodState (VariantA.handleAnalogStick s x y now).1.pressedKeys
      (t ++ (VariantA.handleAnalogStick s x y now).2) := by
  unfold VariantA.handleAnalogStick
  have h1 := good_handleAnalogDirection "right" (decide (x > VariantA.deadzone)) now h
  have h2 := good_handleAnalogDirection "left" (decide (x < -VariantA.deadzone)) now h1
  have h3 := good_handleAnalogDirection "down" (decide (y > VariantA.deadzone)) now h2
  have h4 := good_handleAnalogDirection "up" (decide (y < -VariantA.deadzone)) now h3
  simpa [List.append_assoc] using h4

theorem good_tickA {s : VariantA.State} {t : List Event} {snap : Snapshot} {now : Int}
    (h : GoodState s.pressedKeys t) :
    GoodState (VariantA.tick s snap now).1.pressedKeys (t ++ (VariantA.tick s snap now).2) := by
  unfold VariantA.tick
  have h1 := good_applyPlan (VariantA.buttonMap.map (fun bk => (bk.2, snap.button bk.1))) h
  have h2 := good_setKeyL (k := "a") (b := (VariantA.areTriggersPressed snap).1) h1
  have h3 := good_setKeyL (k := "s") (b := (VariantA.areTriggersPressed snap).2) h2
  have h4 := good_handleAnalogStick
    { s with pressedKeys := (setKeyL (setKeyL (applyPlan s.pressedKeys
        (VariantA.buttonMap.map (fun bk => (bk.2, snap.button bk.1)))).1 "a"
        (VariantA.areTriggersPressed snap).1).1 "s" (VariantA.areTriggersPressed snap).2).1 }
    (snap.axis 0) (snap.axis 1) now h3
  simpa [List.append_assoc] using h4

theorem good_tickB {s : VariantB.State} {t : List Event} {snap : Snapshot}
    (h : GoodState s.pressedKeys t) :
    GoodState (VariantB.tick s snap).1.pressedKeys (t ++ (VariantB.tick s snap).2) := by
  unfold VariantB.tick VariantB.handleDirectionalInputs VariantB.handleButtons
    VariantB.handleTriggers
  have h1 := good_applyPlan
    [("up", decide (VariantB.directionOf snap &&& VariantB.DIR_UP ≠ 0)),
      ("down", decide (VariantB.directionOf snap &&& VariantB.DIR_DOWN ≠ 0)),
      ("left", decide (VariantB.directionOf snap &&& VariantB.DIR_LEFT ≠ 0)),
      ("right", decide (VariantB.directionOf snap &&& VariantB.DIR_RIGHT ≠ 0))] h
  have h2 := good_applyPlan (VariantB.buttonKeyMap.map (fun bk => (bk.2, snap.button bk.1))) h1
  have h3 := good_applyPlan (VariantB.triggerKeyMap.map
      (fun ak => (ak.2, decide (snap.axis ak.1 > VariantB.triggerThreshold)))) h2
  simpa [List.append_assoc] using h3

/-- C6: after every engine operation a key is in the pressed set exactly
when the emitter trace shows a `keyDown` not yet followed by `keyUp`:
`pressKey` emits `keyDown` exactly when the key is absent and inserts
it, `releaseKey` emits `keyUp` exactly when it is present and removes
it, and the invariant (together with duplicate-freedom of the set) is
preserved by both primitives, by a full tick of either variant, and
holds initially for the fresh state with the empty trace. -/
theorem C6_pressed_set_invariant :
    (∀ (p : List String) (k : String),
      (pressKeyL p k).2 = (if k ∈ p then [] else [Event.keyDown k]) ∧
      (releaseKeyL p k).2 = (if k ∈ p then [Event.keyUp k] else [])) ∧
    (∀ (p : List String) (t : List Event) (k : String), GoodState p t →
      GoodState (pressKeyL p k).1 (t ++ (pressKeyL p k).2)) ∧
    (∀ (p : List String) (t : List Event) (k : String), GoodState p t →
      GoodState (releaseKeyL p k).1 (t ++ (releaseKeyL p k).2)) ∧
    (∀ (s : VariantA.State) (t : List Event) (snap : Snapshot) (now : Int),
      GoodState s.pressedKeys t →
      GoodState (VariantA.tick s snap now).1.pressedKeys (t ++ (VariantA.tick s snap now).2)) ∧
    (∀ (s : VariantB.State) (t : List Event) (snap : Snapshot),
      GoodState s.pressedKeys t →
      GoodState (VariantB.tick s snap).1.pressedKeys (t ++ (VariantB.tick s snap).2)) ∧
    GoodState VariantA.initState.pressedKeys [] ∧
    GoodState VariantB.initState.pressedKeys [] := by
  refine ⟨?_, ?_, ?_, ?_, ?_, ?_, ?_⟩
  · intro p k
    constructor
    · unfold pressKeyL
      split <;> simp_all
    · unfold releaseKeyL
      split <;> simp_all
  · intro p t k h
    exact good_pressKeyL h
  · intro p t k h
    exact good_releaseKeyL h
  · intro s t snap now h
    exact good_tickA h
  · intro s t snap h
    exact good_tickB h
  · exact ⟨List.nodup_nil, fun k => by simp [VariantA.initState, lastIsDown, List.foldl]⟩
  · exact ⟨List.nodup_nil, fun k => by simp [VariantB.initState, lastIsDown, List.foldl]⟩

/-- Witness for C6: the invariant propagated through one concrete tick
of each variant from the fresh state and empty trace. -/
theorem C6_pressed_set_invariant_witness :
    GoodState (VariantA.tick VariantA.initState snapStickLeft 0).1.pressedKeys
        ([] ++ (VariantA.tick VariantA.initState snapStickLeft 0).2) ∧
      GoodState (VariantB.tick VariantB.initState snapStickLeft).1.pressedKeys
        ([] ++ (VariantB.tick VariantB.initState snapStickLeft).2) :=
  ⟨C6_pressed_set_invariant.2.2.2.1 VariantA.initState [] snapStickLeft 0
      ⟨List.nodup_nil, fun k => by simp [VariantA.initState, lastIsDown, List.foldl]⟩,
    C6_pressed_set_invariant.2.2.2.2.1 VariantB.initState [] snapStickLeft
      ⟨List.nodup_nil, fun k => by simp [VariantB.initState, lastIsDown, List.foldl]⟩⟩

/-! C7 and C8: boundary conventions. -/

set_option maxRecDepth 4000 in
/-- C7: an axis magnitude of exactly 8000 (the deadzone) asserts no
direction while 8001 does, for all four directions in both variants:
variant A's `handleAnalogStick` emits nothing at the boundary and the
matching `keyDown` one unit past it, and variant B's direction mask is
`DIR_NONE` at the boundary and the matching single bit one unit past it
(shown both on the mask and through a full tick). -/
theorem C7_deadzone_boundary :
    ((VariantA.handleAnalogStick VariantA.initState 8000 0 0).2 = [] ∧
      (VariantA.handleAnalogStick VariantA.initState 8001 0 0).2 = [Event.keyDown "right"] ∧
      (VariantA.handleAnalogStick VariantA.initState (-8000) 0 0).2 = [] ∧
      (VariantA.handleAnalogStick VariantA.initState (-8001) 0 0).2 = [Event.keyDown "left"] ∧
      (VariantA.handleAnalogStick VariantA.initState 0 8000 0).2 = [] ∧
      (VariantA.handleAnalogStick VariantA.initState 0 8001 0).2 = [Event.keyDown "down"] ∧
      (VariantA.handleAnalogStick VariantA.initState 0 (-8000) 0).2 = [] ∧
      (VariantA.handleAnalogStick VariantA.initState 0 (-8001) 0).2 = [Event.keyDown "up"]) ∧
    (VariantB.directionOf (mkStickSnap 8000 0) = VariantB.DIR_NONE ∧
      VariantB.directionOf (mkStickSnap 8001 0) = VariantB.DIR_RIGHT ∧
      VariantB.directionOf (mkStickSnap (-8000) 0) = VariantB.DIR_NONE ∧
      VariantB.directionOf (mkStickSnap (-8001) 0) = VariantB.DIR_LEFT ∧
      VariantB.directionOf (mkStickSnap 0 8000) = VariantB.DIR_NONE ∧
      VariantB.directionOf (mkStickSnap 0 8001) = VariantB.DIR_DOWN ∧
      VariantB.directionOf (mkStickSnap 0 (-8000)) = VariantB.DIR_NONE ∧
      VariantB.directionOf (mkStickSnap 0 (-8001)) = VariantB.DIR_UP) ∧
    ((VariantB.tick VariantB.initState (mkStickSnap 8000 0)).2 = [] ∧
      (VariantB.tick VariantB.initState (mkStickSnap 8001 0)).2 = [Event.keyDown "right"]) := by
  decide

set_option maxRecDepth 4000 in
/-- C8: both variants use the strict threshold 16383 (Go's `32767 / 2`)
for the trigger axes: a left-trigger value of 20000 produces exactly
`keyDown("a")`, a second identical tick is silent (idempotent routing),
dropping the axis to 0 produces exactly `keyUp("a")`, the boundary value
16383 is not pressed while 16384 is, and the right trigger maps to
`"s"` symmetrically. -/
theorem C8_trigger_threshold :
    (VariantA.TRIGGER_THRESHOLD = 16383 ∧ VariantB.triggerThreshold = 16383) ∧
    ((VariantA.tick VariantA.initState (mkTriggerSnap 20000 0) 0).2 = [Event.keyDown "a"] ∧
      (VariantA.tick (VariantA.tick VariantA.initState (mkTriggerSnap 20000 0) 0).1
        (mkTriggerSnap 20000 0) 10).2 = [] ∧
      (VariantA.tick (VariantA.tick VariantA.initState (mkTriggerSnap 20000 0) 0).1
        (mkTriggerSnap 0 0) 20).2 = [Event.keyUp "a"] ∧
      (VariantA.tick VariantA.initState (mkTriggerSnap 16383 0) 0).2 = [] ∧
      (VariantA.tick VariantA.initState (mkTriggerSnap 16384 0) 0).2 = [Event.keyDown "a"] ∧
      (VariantA.tick VariantA.initState (mkTriggerSnap 0 20000) 0).2 = [Event.keyDown "s"] ∧
      (VariantA.tick (VariantA.tick VariantA.initState (mkTriggerSnap 0 20000) 0).1
        (mkTriggerSnap 0 0) 10).2 = [Event.keyUp "s"]) ∧
    ((VariantB.tick VariantB.initState (mkTriggerSnap 20000 0)).2 = [Event.keyDown "a"] ∧
      (VariantB.tick (VariantB.tick VariantB.initState (mkTriggerSnap 20000 0)).1
        (mkTriggerSnap 20000 0)).2 = [] ∧
      (VariantB.tick (VariantB.tick VariantB.initState (mkTriggerSnap 20000 0)).1
        (mkTriggerSnap 0 0)).2 = [Event.keyUp "a"] ∧
      (VariantB.tick VariantB.initState (mkTriggerSnap 16383 0)).2 = [] ∧
      (VariantB.tick VariantB.initState (mkTriggerSnap 16384 0)).2 = [Event.keyDown "a"] ∧
      (VariantB.tick VariantB.initState (mkTriggerSnap 0 20000)).2 = [Event.keyDown "s"] ∧
      (VariantB.tick (VariantB.tick VariantB.initState (mkTriggerSnap 0 20000)).1
        (mkTriggerSnap 0 0)).2 = [Event.keyUp "s"]) := by
  decide

/-! C9: fatal initialization failures and exit codes. -/

/-- C9: whenever `sdl.Init` fails, no joystick is present, or the
controller cannot be opened, startup shows an alert (and `main` shows a
second one), logs fatally and exits with code 1 without ever entering
the `Run` loop; when all three checks pass the loop is entered and a
quit-signal shutdown exits with code 0.  The outcome never depends on
whether the `osascript` alert command itself succeeds, since its result
is ignored. -/
theorem C9_fatal_init :
    (∀ env : Startup.SdlEnv,
      ¬ (env.initOk = true ∧ 1 ≤ env.numJoysticks ∧ env.openOk = true) →
      (Startup.mainGo env).2 = 1 ∧
        Startup.SysEvent.loopEntered ∉ (Startup.mainGo env).1 ∧
        ∃ m, Startup.SysEvent.alertShown m ∈ (Startup.mainGo env).1) ∧
    (∀ env : Startup.SdlEnv,
      env.initOk = true → 1 ≤ env.numJoysticks → env.openOk = true →
      (Startup.mainGo env).2 = 0 ∧ Startup.SysEvent.loopEntered ∈ (Startup.mainGo env).1) ∧
    (∀ (env : Startup.SdlEnv) (b : Bool),
      Startup.mainGo { env with alertOk := b } = Startup.mainGo env) := by
  refine ⟨?_, ?_, ?_⟩
  · rintro ⟨i, n, o, al⟩ h
    cases i
    · simp [Startup.mainGo, Startup.NewControllerMapper, Startup.showAlert]
    · by_cases hn : n < 1
      · simp [Startup.mainGo, Startup.NewControllerMapper, Startup.showAlert, hn]
      · cases o
        · simp [Startup.mainGo, Startup.NewControllerMapper, Startup.showAlert, hn]
        · exact absurd ⟨rfl, show (1 : Int) ≤ n by omega, rfl⟩ h
  · rintro ⟨i, n, o, al⟩ hi hn ho
    cases i
    · cases hi
    · cases o
      · cases ho
      · have hn' : (1 : Int) ≤ n := hn
        have hn2 : ¬ n < 1 := by omega
        simp [Startup.mainGo, Startup.NewControllerMapper, hn2]
  · rintro ⟨i, n, o, al⟩ b
    rfl

/-- Witness for C9 at two concrete environments: a failed `sdl.Init`
and a fully successful startup. -/
theorem C9_fatal_init_witness :
    ((Startup.mainGo { initOk := false, numJoysticks := 0, openOk := false, alertOk := true }).2
        = 1 ∧
      Startup.SysEvent.loopEntered ∉
        (Startup.mainGo
          { initOk := false, numJoysticks := 0, openOk := false, alertOk := true }).1 ∧
      ∃ m, Startup.SysEvent.alertShown m ∈
        (Startup.mainGo
          { initOk := false, numJoysticks := 0, openOk := false, alertOk := true }).1) ∧
    ((Startup.mainGo { initOk := true, numJoysticks := 1, openOk := true, alertOk := false }).2
        = 0 ∧
      Startup.SysEvent.loopEntered ∈
        (Startup.mainGo
          { initOk := true, numJoysticks := 1, openOk := true, alertOk := false }).1) :=
  ⟨C9_fatal_init.1 { initOk := false, numJoysticks := 0, openOk := false, alertOk := true }
      (by simp),
    C9_fatal_init.2.1 { initOk := true, numJoysticks := 1, openOk := true, alertOk := false }
      rfl (show (1 : Int) ≤ 1 by omega) rfl⟩

/-! C10: within one variant B tick the stick asserts at most one bit of
each opposing pair. -/

theorem lor_eq_zero_iff (a b : Nat) : a ||| b = 0 ↔ a = 0 ∧ b = 0 := by
  constructor
  · intro h
    constructor <;>
      · apply Nat.eq_of_testBit_eq
        intro i
        have h2 := congrArg (fun n => n.testBit i) h
        simp only [Nat.testBit_or, Nat.zero_testBit] at h2
        simp only [Nat.zero_testBit]
        rcases Bool.or_eq_false_iff.mp h2 with ⟨ha, hb⟩
        first
          | exact ha
          | exact hb
  · rintro ⟨rfl, rfl⟩
    rfl

set_option maxHeartbeats 2000000 in
theorem directionOf_decomp (snap : Snapshot) :
    VariantB.directionOf snap =
      VariantB.dpadDirectionOf snap |||
        VariantB.stickDirectionOf (snap.axis 0) (snap.axis 1) := by
  unfold VariantB.directionOf VariantB.dpadDirectionOf VariantB.stickDirectionOf
  by_cases h11 : snap.button 11 = true <;>
    by_cases h12 : snap.button 12 = true <;>
      by_cases h13 : snap.button 13 = true <;>
        by_cases h14 : snap.button 14 = true <;>
          simp only [h11, h12, h13, h14, if_true, if_false, Bool.false_eq_true] <;>
            split_ifs <;> decide

theorem stick_exclusive (x y : Int) :
    ¬ (VariantB.stickDirectionOf x y &&& VariantB.DIR_LEFT ≠ 0 ∧
        VariantB.stickDirectionOf x y &&& VariantB.DIR_RIGHT ≠ 0) ∧
      ¬ (VariantB.stickDirectionOf x y &&& VariantB.DIR_UP ≠ 0 ∧
        VariantB.stickDirectionOf x y &&& VariantB.DIR_DOWN ≠ 0) := by
  unfold VariantB.stickDirectionOf VariantB.DIR_NONE VariantB.DIR_UP VariantB.DIR_DOWN
    VariantB.DIR_LEFT VariantB.DIR_RIGHT
  split_ifs <;> decide

theorem dpad_bits (snap : Snapshot) :
    ((VariantB.dpadDirectionOf snap &&& VariantB.DIR_UP ≠ 0) ↔ snap.button 11 = true) ∧
    ((VariantB.dpadDirectionOf snap &&& VariantB.DIR_DOWN ≠ 0) ↔ snap.button 12 = true) ∧
    ((VariantB.dpadDirectionOf snap &&& VariantB.DIR_LEFT ≠ 0) ↔ snap.button 13 = true) ∧
    ((VariantB.dpadDirectionOf snap &&& VariantB.DIR_RIGHT ≠ 0) ↔ snap.button 14 = true) := by
  unfold VariantB.dpadDirectionOf VariantB.DIR_NONE VariantB.DIR_UP VariantB.DIR_DOWN
    VariantB.DIR_LEFT VariantB.DIR_RIGHT
  split_ifs <;> simp_all <;> decide

/-- C10: in variant B the analog stick contributes at most one of
left/right and at most one of up/down to the direction mask within any
tick (the else-if structure), the mask equals the OR of the D-pad
contribution and the stick contribution, and therefore both bits of an
opposing pair can only be set when the D-pad asserts at least one of the
two (so both keys of an opposing pair can be held simultaneously only
with D-pad involvement). -/
theorem C10_stick_pair_exclusive :
    ∀ snap : Snapshot,
      (¬ (VariantB.stickDirectionOf (snap.axis 0) (snap.axis 1) &&& VariantB.DIR_LEFT ≠ 0 ∧
          VariantB.stickDirectionOf (snap.axis 0) (snap.axis 1) &&& VariantB.DIR_RIGHT ≠ 0)) ∧
      (¬ (VariantB.stickDirectionOf (snap.axis 0) (snap.axis 1) &&& VariantB.DIR_UP ≠ 0 ∧
          VariantB.stickDirectionOf (snap.axis 0) (snap.axis 1) &&& VariantB.DIR_DOWN ≠ 0)) ∧
      VariantB.directionOf snap =
        VariantB.dpadDirectionOf snap |||
          VariantB.stickDirectionOf (snap.axis 0) (snap.axis 1) ∧
      ((VariantB.directionOf snap &&& VariantB.DIR_LEFT ≠ 0 ∧
          VariantB.directionOf snap &&& VariantB.DIR_RIGHT ≠ 0) →
        snap.button 13 = true ∨ snap.button 14 = true) ∧
      ((VariantB.directionOf snap &&& VariantB.DIR_UP ≠ 0 ∧
          VariantB.directionOf snap &&& VariantB.DIR_DOWN ≠ 0) →
        snap.button 11 = true ∨ snap.button 12 = true) := by
  intro snap
  refine ⟨(stick_exclusive _ _).1, (stick_exclusive _ _).2, directionOf_decomp snap, ?_, ?_⟩
  · intro hboth
    rw [directionOf_decomp snap, Nat.and_distrib_right, Nat.and_distrib_right] at hboth
    have hL : VariantB.dpadDirectionOf snap &&& VariantB.DIR_LEFT ≠ 0 ∨
        VariantB.stickDirectionOf (snap.axis 0) (snap.axis 1) &&& VariantB.DIR_LEFT ≠ 0 := by
      by_contra hc
      push_neg at hc
      exact hboth.1 (by rw [hc.1, hc.2]; decide)
    have hR : VariantB.dpadDirectionOf snap &&& VariantB.DIR_RIGHT ≠ 0 ∨
        VariantB.stickDirectionOf (snap.axis 0) (snap.axis 1) &&& VariantB.DIR_RIGHT ≠ 0 := by
      by_contra hc
      push_neg at hc
      exact hboth.2 (by rw [hc.1, hc.2]; decide)
    rcases hL with hdl | hsl
    · exact Or.inl ((dpad_bits snap).2.2.1.mp hdl)
    · rcases hR with hdr | hsr
      · exact Or.inr ((dpad_bits snap).2.2.2.mp hdr)
      · exact absurd ⟨hsl, hsr⟩ (stick_exclusive _ _).1
  · intro hboth
    rw [directionOf_decomp snap, Nat.and_distrib_right, Nat.and_distrib_right] at hboth
    have hU : VariantB.dpadDirectionOf snap &&& VariantB.DIR_UP ≠ 0 ∨
        VariantB.stickDirectionOf (snap.axis 0) (snap.axis 1) &&& VariantB.DIR_UP ≠ 0 := by
      by_contra hc
      push_neg at hc
      exact hboth.1 (by rw [hc.1, hc.2]; decide)
    have hD : VariantB.dpadDirectionOf snap &&& VariantB.DIR_DOWN ≠ 0 ∨
        VariantB.stickDirectionOf (snap.axis 0) (snap.axis 1) &&& VariantB.DIR_DOWN ≠ 0 := by
      by_contra hc
      push_neg at hc
      exact hboth.2 (by rw [hc.1, hc.2]; decide)
    rcases hU with hdu | hsu
    · exact Or.inl ((dpad_bits snap).1.mp hdu)
    · rcases hD with hdd | hsd
      · exact Or.inr ((dpad_bits snap).2.1.mp hdd)
      · exact absurd ⟨hsu, hsd⟩ (stick_exclusive _ _).2

set_option maxRecDepth 4000 in
/-- Witness for C10 at the opposing-directions snapshot: both the up and
down bits are set there, and the theorem concludes that a D-pad button
asserts one of them. -/
theorem C10_stick_pair_exclusive_witness :
    snapDpadUpStickDown.button 11 = true ∨ snapDpadUpStickDown.button 12 = true :=
  (C10_stick_pair_exclusive snapDpadUpStickDown).2.2.2.2 (by decide)
